import Mathlib

/-!
# Verification of `scripts/convert_models_to_onnx.py`

A shallow embedding of the batch model-conversion script. The filesystem is
modelled as an explicit state (an association list of file paths to sizes in
bytes, plus a list of existing directories). The external ultralytics
loader/exporter is an opaque environment: an oracle deciding whether loading a
checkpoint raises, what artifact path (if any) the export call produces, and
the artifact's size. Console side effects relevant to the claims are recorded
in an event trace. Exceptions become an explicit error result; the per-model
`try/except` in `main` becomes a `match` on that result.
-/

/-- Configuration record passed to the external export call
(`model.export(format=..., imgsz=..., dynamic=..., simplify=..., opset=...)`). -/
structure ExportConfig where
  format : String
  imgsz : Nat
  dynamic : Bool
  simplify : Bool
  opset : Nat
deriving DecidableEq, Repr

/-- The fixed configuration the script passes to `model.export` (lines 39-45). -/
def fixedExportConfig : ExportConfig :=
  ExportConfig.mk "onnx" 640 true true 12

/-- Filesystem state: files (path, size in bytes) and existing directories. -/
structure FS where
  files : List (String × Nat)
  dirs : List String
deriving DecidableEq, Repr

/-- `os.path.exists` restricted to files (the registry entries are files). -/
def FS.existsFile (fs : FS) (p : String) : Bool :=
  (fs.files.lookup p).isSome

/-- `os.path.getsize` (in bytes). -/
def FS.getsize (fs : FS) (p : String) : Option Nat :=
  fs.files.lookup p

/-- Write a file: a real filesystem holds at most one entry per path, so all
previous entries for the path are replaced. -/
def FS.setFile (fs : FS) (p : String) (sz : Nat) : FS :=
  FS.mk ((p, sz) :: fs.files.filter (fun e => e.1 != p)) fs.dirs

/-- Remove a file. -/
def FS.removeFile (fs : FS) (p : String) : FS :=
  FS.mk (fs.files.filter (fun e => e.1 != p)) fs.dirs

/-- Number of directory entries for a path (a duplicate-free filesystem has
at most one). -/
def FS.countKey (fs : FS) (p : String) : Nat :=
  (fs.files.filter (fun e => e.1 == p)).length

/-- Split a character list at every occurrence of `c` (like `str.split(c)`:
an empty input gives one empty component, a trailing `c` a trailing empty
component). -/
def splitOnChar (c : Char) : List Char → List (List Char)
  | [] => [[]]
  | x :: xs =>
    let r := splitOnChar c xs
    if x == c then [] :: r
    else
      match r with
      | [] => [[x]]
      | y :: ys => (x :: y) :: ys

/-- Join path components with a slash (`"/".join(parts)`). -/
def intercalateSlash : List String → String
  | [] => ""
  | [x] => x
  | x :: xs => x ++ "/" ++ intercalateSlash xs

/-- All ancestor directories of `dir` including `dir` itself, as created by
`os.makedirs`: for `a/b/c` the list `[a, a/b, a/b/c]` (the proper parents,
then the directory itself). -/
def dirPrefixes (dir : String) : List String :=
  let comps := (splitOnChar '/' dir.toList).map String.mk
  ((List.range (comps.length - 1)).map
    (fun i => intercalateSlash (comps.take (i + 1)))) ++ [dir]

/-- `os.path.basename`: the component after the last slash. -/
def basename (p : String) : String :=
  String.mk ((splitOnChar '/' p.toList).getLastD [])

/-- The root part of `os.path.splitext` on a slash-free name: cut at the last
dot, unless every character before that dot is itself a dot (so `.bashrc` and
`..` are left whole), following `posixpath.splitext`. -/
def splitextRoot (s : String) : String :=
  let cs := s.toList
  match cs.reverse.findIdx? (fun c => c == '.') with
  | none => s
  | some k =>
    let i := cs.length - 1 - k
    if (cs.take i).any (fun c => c != '.') then String.mk (cs.take i) else s

/-- `os.path.join` for two components (posix rules: an absolute second
component wins; a slash is inserted unless the first component is empty or
already ends with one). -/
def joinPath (a b : String) : String :=
  if b.toList.head? == some '/' then b
  else if a.toList.isEmpty || a.toList.getLast? == some '/' then a ++ b
  else a ++ "/" ++ b

/-- The opaque external world: the ultralytics loader/exporter and the
operating system's leeway to refuse creating a new directory. -/
structure Env where
  loadFails : String → Bool
  exportResult : String → ExportConfig → Option String
  artifactSize : String → Nat
  mkdirFails : String → Bool

/-- Observable events of one run, in order. -/
inductive Event where
  | madeDirs (dir : String)
  | loaded (path : String)
  | exported (modelPath : String) (cfg : ExportConfig) (artifact : String)
  | moved (src dst : String)
  | loggedSize (path : String) (mb : ℚ)
  | warnedMissing (path : String)
  | caughtError (path : String)
deriving DecidableEq, Repr

/-- The exceptions `convert_yolov8_to_onnx` can raise, by raising site. -/
inductive ConvError where
  | mkdirFailed
  | loadFailed
  | exportFailed
  | moveFailed
deriving DecidableEq, Repr

/-- Outcome of `convert_yolov8_to_onnx`: the returned path or the exception. -/
inductive ConvResult where
  | ok (path : String)
  | error (e : ConvError)
deriving DecidableEq, Repr

/-- Filesystem effect of a successful `os.makedirs(dir, exist_ok=True)`:
nothing when `dir` exists, otherwise `dir` and all its parents appear. -/
def mkdirsFS (fs : FS) (dir : String) : FS :=
  if fs.dirs.contains dir then fs else FS.mk fs.files (dirPrefixes dir ++ fs.dirs)

/-- State after a call to `convert_yolov8_to_onnx`: result, filesystem, trace. -/
structure ConvOut where
  result : ConvResult
  fs : FS
  trace : List Event
deriving DecidableEq, Repr

/-- `convert_yolov8_to_onnx(model_path, output_dir)` (lines 16-59):
`os.makedirs(output_dir, exist_ok=True)`; `model = YOLO(model_path)`;
`model_name = os.path.splitext(os.path.basename(model_path))[0]`;
`onnx_path = model.export(format='onnx', imgsz=640, dynamic=True,
simplify=True, opset=12)`;
`output_path = os.path.join(output_dir, f'{model_name}.onnx')`;
`shutil.move(onnx_path, output_path)`; print the size
`os.path.getsize(output_path) / (1024 * 1024)`; `return output_path`. -/
def convert_yolov8_to_onnx (env : Env) (model_path : String) (output_dir : String)
    (fs : FS) : ConvOut :=
  if !fs.dirs.contains output_dir && env.mkdirFails output_dir then
    ConvOut.mk (ConvResult.error ConvError.mkdirFailed) fs []
  else
    let fs1 : FS := mkdirsFS fs output_dir
    if env.loadFails model_path then
      ConvOut.mk (ConvResult.error ConvError.loadFailed) fs1 [Event.madeDirs output_dir]
    else
      let model_name := splitextRoot (basename model_path)
      match env.exportResult model_path fixedExportConfig with
      | none =>
        ConvOut.mk (ConvResult.error ConvError.exportFailed) fs1
          [Event.madeDirs output_dir, Event.loaded model_path]
      | some onnx_path =>
        let fs2 := fs1.setFile onnx_path (env.artifactSize onnx_path)
        let output_path := joinPath output_dir (model_name ++ ".onnx")
        if fs2.existsFile onnx_path then
          let sz := (fs2.getsize onnx_path).getD 0
          let fs3 := (fs2.removeFile onnx_path).setFile output_path sz
          let bytes := (fs3.getsize output_path).getD 0
          ConvOut.mk (ConvResult.ok output_path) fs3
            [Event.madeDirs output_dir, Event.loaded model_path,
             Event.exported model_path fixedExportConfig onnx_path,
             Event.moved onnx_path output_path,
             Event.loggedSize output_path ((bytes : ℚ) / (1024 * 1024))]
        else
          ConvOut.mk (ConvResult.error ConvError.moveFailed) fs2
            [Event.madeDirs output_dir, Event.loaded model_path,
             Event.exported model_path fixedExportConfig onnx_path]

/-- The default value of `convert_yolov8_to_onnx`'s `output_dir` parameter,
used by every call `main` makes. -/
def default_output_dir : String := "public/models"

/-- State after `main`'s loop: filesystem, the `converted_models` accumulator,
and the trace. -/
structure BatchOut where
  fs : FS
  converted : List String
  trace : List Event
deriving DecidableEq, Repr

/-- The per-model loop of `main` (lines 75-83), parameterized by the registry:
for each path, skip with a warning if `os.path.exists` is false, otherwise
call `convert_yolov8_to_onnx` inside `try/except`, appending the returned
path on success and logging the caught error on failure. -/
def run_batch (env : Env) (models : List String) (fs : FS) : BatchOut :=
  match models with
  | [] => BatchOut.mk fs [] []
  | m :: rest =>
    if fs.existsFile m then
      let c := convert_yolov8_to_onnx env m default_output_dir fs
      match c.result with
      | ConvResult.ok out =>
        let r := run_batch env rest c.fs
        BatchOut.mk r.fs (out :: r.converted) (c.trace ++ r.trace)
      | ConvResult.error _ =>
        let r := run_batch env rest c.fs
        BatchOut.mk r.fs r.converted (c.trace ++ [Event.caughtError m] ++ r.trace)
    else
      let r := run_batch env rest fs
      BatchOut.mk r.fs r.converted (Event.warnedMissing m :: r.trace)

/-- The hard-coded model registry of `main` (lines 68-71). -/
def models_registry : List String :=
  ["api/yolov8n-pose.pt", "api/yolov8s-pose.pt"]

namespace Script

/-- `main` (lines 61-102): the loop over the fixed registry; the prints
before and after the loop touch neither the filesystem nor the accumulator. -/
def main (env : Env) (fs : FS) : BatchOut :=
  run_batch env models_registry fs

end Script

/-! ## Concrete fixtures used by witnesses and counterexamples -/

/-- An environment where every conversion step succeeds for the nano model:
its export drops an artifact `yolov8n-pose.onnx` of 5 MiB in the working
directory. -/
def envOk : Env :=
  Env.mk (fun _ => false)
    (fun p _ => if p == "api/yolov8n-pose.pt" then some "yolov8n-pose.onnx" else none)
    (fun _ => 5242880)
    (fun _ => false)

/-- A filesystem holding only the nano checkpoint. -/
def fsOk : FS := FS.mk [("api/yolov8n-pose.pt", 100)] []

/-- An environment where loading the first registry model raises and the
second exports fine. -/
def envAB : Env :=
  Env.mk (fun p => p == "api/yolov8n-pose.pt")
    (fun p _ => if p == "api/yolov8s-pose.pt" then some "yolov8s-pose.onnx" else none)
    (fun _ => 11534336)
    (fun _ => false)

/-- A filesystem holding both registry checkpoints. -/
def fsAB : FS :=
  FS.mk [("api/yolov8n-pose.pt", 100), ("api/yolov8s-pose.pt", 200)] []

/-- An environment where the operating system refuses to create any new
directory (for instance, the process lacks write permission). -/
def envNoMkdir : Env :=
  Env.mk (fun _ => false) (fun _ _ => none) (fun _ => 0) (fun _ => true)

/-- A filesystem where the output directory already exists. -/
def fsDirReady : FS := FS.mk [("api/yolov8n-pose.pt", 100)] ["public/models"]

/-- An environment where loading every checkpoint raises but directory
creation works. -/
def envLoadFail : Env :=
  Env.mk (fun _ => true) (fun _ _ => none) (fun _ => 0) (fun _ => false)

/-! ## Helper lemmas about the filesystem model -/

theorem FS.existsFile_eq_isSome_getsize (fs : FS) (p : String) :
    fs.existsFile p = (fs.getsize p).isSome := rfl

theorem lookup_filter_ne (p q : String) (h : q ≠ p) (l : List (String × Nat)) :
    (l.filter (fun e => e.1 != p)).lookup q = l.lookup q := by
  induction l with
  | nil => rfl
  | cons a l ih =>
    rcases a with ⟨k, v⟩
    simp only [bne] at ih ⊢
    by_cases hk : k = p
    · subst hk
      have hc : (!((k, v).1 == k)) = false := by simp
      have hq : (q == k) = false := beq_eq_false_iff_ne.mpr h
      rw [List.filter_cons, hc, if_neg (by simp), ih, List.lookup, hq]
    · have hc : (!((k, v).1 == p)) = true := by simp [hk]
      rw [List.filter_cons, hc, if_pos rfl]
      cases hqk : (q == k) <;> simp [List.lookup, hqk, ih]

theorem lookup_filter_self (p : String) (l : List (String × Nat)) :
    (l.filter (fun e => e.1 != p)).lookup p = none := by
  induction l with
  | nil => rfl
  | cons a l ih =>
    rcases a with ⟨k, v⟩
    simp only [bne] at ih ⊢
    by_cases hk : k = p
    · subst hk
      have hc : (!((k, v).1 == k)) = false := by simp
      rw [List.filter_cons, hc, if_neg (by simp), ih]
    · have hc : (!((k, v).1 == p)) = true := by simp [hk]
      have hpk : (p == k) = false := beq_eq_false_iff_ne.mpr (fun hh => hk hh.symm)
      rw [List.filter_cons, hc, if_pos rfl]
      simp [List.lookup, hpk, ih]

theorem FS.getsize_setFile_self (fs : FS) (p : String) (sz : Nat) :
    (fs.setFile p sz).getsize p = some sz := by
  simp [FS.setFile, FS.getsize, List.lookup]

theorem FS.getsize_setFile_ne (fs : FS) (p q : String) (sz : Nat) (h : q ≠ p) :
    (fs.setFile p sz).getsize q = fs.getsize q := by
  simp [FS.setFile, FS.getsize, List.lookup, beq_eq_false_iff_ne.mpr h,
    lookup_filter_ne p q h]

theorem FS.getsize_removeFile_self (fs : FS) (p : String) :
    (fs.removeFile p).getsize p = none := by
  simp [FS.removeFile, FS.getsize, lookup_filter_self]

theorem FS.getsize_removeFile_ne (fs : FS) (p q : String) (h : q ≠ p) :
    (fs.removeFile p).getsize q = fs.getsize q := by
  simp [FS.removeFile, FS.getsize, lookup_filter_ne p q h]

theorem FS.existsFile_setFile_self (fs : FS) (p : String) (sz : Nat) :
    (fs.setFile p sz).existsFile p = true := by
  simp [FS.existsFile_eq_isSome_getsize, FS.getsize_setFile_self]

theorem FS.dirs_setFile (fs : FS) (p : String) (sz : Nat) :
    (fs.setFile p sz).dirs = fs.dirs := rfl

theorem FS.dirs_removeFile (fs : FS) (p : String) :
    (fs.removeFile p).dirs = fs.dirs := rfl

theorem FS.countKey_setFile_self (fs : FS) (p : String) (sz : Nat) :
    (fs.setFile p sz).countKey p = 1 := by
  have hnil : (fs.files.filter (fun e => e.1 != p)).filter (fun e => e.1 == p) = [] := by
    rw [List.filter_filter]
    apply List.filter_eq_nil_iff.mpr
    intro a _
    cases h : a.1 == p <;> simp [h, bne]
  simp [FS.setFile, FS.countKey, List.filter_cons, hnil]

theorem mkdirsFS_files (fs : FS) (d : String) : (mkdirsFS fs d).files = fs.files := by
  unfold mkdirsFS
  split <;> rfl

theorem mkdirsFS_getsize (fs : FS) (d q : String) :
    (mkdirsFS fs d).getsize q = fs.getsize q := by
  show (mkdirsFS fs d).files.lookup q = fs.files.lookup q
  rw [mkdirsFS_files]

theorem mkdirsFS_existsFile (fs : FS) (d q : String) :
    (mkdirsFS fs d).existsFile q = fs.existsFile q := by
  simp [FS.existsFile_eq_isSome_getsize, mkdirsFS_getsize]

theorem mem_dirPrefixes_self (d : String) : d ∈ dirPrefixes d := by
  simp [dirPrefixes]

theorem mkdirsFS_contains_self (fs : FS) (d : String) :
    (mkdirsFS fs d).dirs.contains d = true := by
  unfold mkdirsFS
  split
  · assumption
  · simp [List.mem_append, mem_dirPrefixes_self]

/-- Characterization of `convert_yolov8_to_onnx`: the internal `shutil.move`
precondition always holds (the artifact was just produced), so the four
possible outcomes are a refused directory creation, a load failure, an export
failure, or success with the artifact re-filed under the joined output path. -/
theorem convert_eq (env : Env) (p d : String) (fs : FS) :
    convert_yolov8_to_onnx env p d fs =
      if !fs.dirs.contains d && env.mkdirFails d then
        ConvOut.mk (ConvResult.error ConvError.mkdirFailed) fs []
      else if env.loadFails p then
        ConvOut.mk (ConvResult.error ConvError.loadFailed) (mkdirsFS fs d)
          [Event.madeDirs d]
      else
        match env.exportResult p fixedExportConfig with
        | none =>
          ConvOut.mk (ConvResult.error ConvError.exportFailed) (mkdirsFS fs d)
            [Event.madeDirs d, Event.loaded p]
        | some art =>
          ConvOut.mk
            (ConvResult.ok (joinPath d (splitextRoot (basename p) ++ ".onnx")))
            ((((mkdirsFS fs d).setFile art (env.artifactSize art)).removeFile art).setFile
              (joinPath d (splitextRoot (basename p) ++ ".onnx")) (env.artifactSize art))
            [Event.madeDirs d, Event.loaded p,
             Event.exported p fixedExportConfig art,
             Event.moved art (joinPath d (splitextRoot (basename p) ++ ".onnx")),
             Event.loggedSize (joinPath d (splitextRoot (basename p) ++ ".onnx"))
               ((env.artifactSize art : ℚ) / (1024 * 1024))] := by
  unfold convert_yolov8_to_onnx
  split
  · rfl
  · split
    · rfl
    · cases hx : env.exportResult p fixedExportConfig with
      | none => rfl
      | some art =>
        simp only [FS.existsFile_setFile_self, if_true, FS.getsize_setFile_self,
          Option.getD_some]

/-- Inversion of a successful `convert_yolov8_to_onnx` call: loading did not
raise, the export produced an artifact, the returned path is the joined output
path, and the final filesystem re-files the artifact under it. -/
theorem convert_ok_inv (env : Env) (p d : String) (fs : FS) (out : String)
    (h : (convert_yolov8_to_onnx env p d fs).result = ConvResult.ok out) :
    env.loadFails p = false ∧
    ∃ art, env.exportResult p fixedExportConfig = some art ∧
      out = joinPath d (splitextRoot (basename p) ++ ".onnx") ∧
      convert_yolov8_to_onnx env p d fs =
        ConvOut.mk (ConvResult.ok out)
          ((((mkdirsFS fs d).setFile art (env.artifactSize art)).removeFile art).setFile
            out (env.artifactSize art))
          [Event.madeDirs d, Event.loaded p, Event.exported p fixedExportConfig art,
           Event.moved art out,
           Event.loggedSize out ((env.artifactSize art : ℚ) / (1024 * 1024))] := by
  have heq := convert_eq env p d fs
  split at heq
  · rw [heq] at h
    simp at h
  · split at heq
    next hld =>
      rw [heq] at h
      simp at h
    next hld =>
      cases hx : env.exportResult p fixedExportConfig with
      | none =>
        rw [hx] at heq
        rw [heq] at h
        simp at h
      | some art =>
        rw [hx] at heq
        rw [heq] at h
        simp only [ConvResult.ok.injEq] at h
        have hld' : env.loadFails p = false := by
          cases hc : env.loadFails p
          · rfl
          · exact absurd hc hld
        subst h
        exact ⟨hld', art, rfl, rfl, heq⟩

/-- Inversion of a failed `convert_yolov8_to_onnx` call whose error is not the
directory creation itself: the filesystem change is exactly the directory
creation, and in particular no file changed. -/
theorem convert_error_inv (env : Env) (p d : String) (fs : FS) (e : ConvError)
    (h : (convert_yolov8_to_onnx env p d fs).result = ConvResult.error e)
    (hne : e ≠ ConvError.mkdirFailed) :
    (convert_yolov8_to_onnx env p d fs).fs = mkdirsFS fs d := by
  have heq := convert_eq env p d fs
  split at heq
  · rw [heq] at h
    simp only [ConvResult.error.injEq] at h
    exact absurd h.symm hne
  · split at heq
    · rw [heq]
    · cases hx : env.exportResult p fixedExportConfig with
      | none => rw [hx] at heq; rw [heq]
      | some art => rw [hx] at heq; rw [heq] at h; simp at h

/-- C1: for every registry whose first entry's conversion raises and whose
second entry converts successfully from the resulting state, the loop in
`main` still attempts the second model, and the final converted list holds
exactly the successful output path. -/
theorem C1_failure_does_not_stop_batch (env : Env) (A B : String) (fs : FS)
    (e : ConvError) (out : String)
    (hA : fs.existsFile A = true)
    (hAfail : (convert_yolov8_to_onnx env A default_output_dir fs).result =
      ConvResult.error e)
    (hB : (convert_yolov8_to_onnx env A default_output_dir fs).fs.existsFile B = true)
    (hBok : (convert_yolov8_to_onnx env B default_output_dir
        (convert_yolov8_to_onnx env A default_output_dir fs).fs).result =
      ConvResult.ok out) :
    (run_batch env [A, B] fs).converted = [out] := by
  simp only [run_batch, hA, if_true, hAfail, hB, hBok]

/-- Witness for C1: loading the nano model raises, the small model converts;
the converted list is exactly the small model's output path. -/
theorem C1_failure_does_not_stop_batch_witness :
    (run_batch envAB ["api/yolov8n-pose.pt", "api/yolov8s-pose.pt"] fsAB).converted =
      ["public/models/yolov8s-pose.onnx"] :=
  C1_failure_does_not_stop_batch envAB "api/yolov8n-pose.pt" "api/yolov8s-pose.pt"
    fsAB ConvError.loadFailed "public/models/yolov8s-pose.onnx" rfl rfl rfl rfl

/-- C2: a registry entry whose source path is absent is skipped: the loop does
not raise, performs no conversion step for it (the only event added is the
missing-file warning), leaves the filesystem unchanged, and the entry
contributes nothing to the converted list. -/
theorem C2_missing_model_skipped (env : Env) (p : String) (rest : List String)
    (fs : FS) (h : fs.existsFile p = false) :
    run_batch env (p :: rest) fs =
      BatchOut.mk (run_batch env rest fs).fs (run_batch env rest fs).converted
        (Event.warnedMissing p :: (run_batch env rest fs).trace) := by
  simp [run_batch, h]

/-- Witness for C2 at a concrete missing path. -/
theorem C2_missing_model_skipped_witness :
    run_batch envOk ["api/yolov8s-pose.pt"] fsOk =
      BatchOut.mk (run_batch envOk [] fsOk).fs (run_batch envOk [] fsOk).converted
        (Event.warnedMissing "api/yolov8s-pose.pt" :: (run_batch envOk [] fsOk).trace) :=
  C2_missing_model_skipped envOk "api/yolov8s-pose.pt" [] fsOk rfl

/-- C3: a successful `convert_yolov8_to_onnx` call returns exactly the joined
path `output_dir/<model_name>.onnx` where `model_name` is the source filename
with its extension removed, and the exporter's artifact has been re-filed
there with its content (size) intact. -/
theorem C3_relocates_artifact_to_joined_path (env : Env) (p d : String) (fs : FS)
    (out : String)
    (h : (convert_yolov8_to_onnx env p d fs).result = ConvResult.ok out) :
    out = joinPath d (splitextRoot (basename p) ++ ".onnx") ∧
    (convert_yolov8_to_onnx env p d fs).fs.existsFile out = true ∧
    ∃ art, env.exportResult p fixedExportConfig = some art ∧
      Event.moved art out ∈ (convert_yolov8_to_onnx env p d fs).trace ∧
      (convert_yolov8_to_onnx env p d fs).fs.getsize out = some (env.artifactSize art) := by
  obtain ⟨-, art, hx, hout, heq⟩ := convert_ok_inv env p d fs out h
  refine ⟨hout, ?_, art, hx, ?_, ?_⟩
  · rw [heq]
    exact FS.existsFile_setFile_self _ _ _
  · rw [heq]
    simp
  · rw [heq]
    exact FS.getsize_setFile_self _ _ _

/-- Witness for C3 on a concrete successful conversion. -/
theorem C3_relocates_artifact_to_joined_path_witness :
    "public/models/yolov8n-pose.onnx" =
      joinPath default_output_dir
        (splitextRoot (basename "api/yolov8n-pose.pt") ++ ".onnx") ∧
    (convert_yolov8_to_onnx envOk "api/yolov8n-pose.pt" default_output_dir
        fsOk).fs.existsFile "public/models/yolov8n-pose.onnx" = true ∧
    ∃ art, envOk.exportResult "api/yolov8n-pose.pt" fixedExportConfig = some art ∧
      Event.moved art "public/models/yolov8n-pose.onnx" ∈
        (convert_yolov8_to_onnx envOk "api/yolov8n-pose.pt" default_output_dir fsOk).trace ∧
      (convert_yolov8_to_onnx envOk "api/yolov8n-pose.pt" default_output_dir
          fsOk).fs.getsize "public/models/yolov8n-pose.onnx" =
        some (envOk.artifactSize art) :=
  C3_relocates_artifact_to_joined_path envOk "api/yolov8n-pose.pt" default_output_dir
    fsOk "public/models/yolov8n-pose.onnx" rfl

/-- C4: every export call observable in a `convert_yolov8_to_onnx` trace was
invoked on the call's own model path with exactly the fixed configuration
(format onnx, 640x640 input, dynamic batch, simplification, opset 12), and
its result is whatever the external exporter returns for that fixed
configuration: no configuration value is derived from the input. -/
theorem C4_export_uses_fixed_config (env : Env) (p d : String) (fs : FS)
    (q a : String) (c : ExportConfig)
    (h : Event.exported q c a ∈ (convert_yolov8_to_onnx env p d fs).trace) :
    c = ExportConfig.mk "onnx" 640 true true 12 ∧ q = p ∧
      env.exportResult p (ExportConfig.mk "onnx" 640 true true 12) = some a := by
  have heq := convert_eq env p d fs
  split at heq
  · rw [heq] at h
    simp at h
  · split at heq
    · rw [heq] at h
      simp at h
    · cases hx : env.exportResult p fixedExportConfig with
      | none =>
        rw [hx] at heq
        rw [heq] at h
        simp at h
      | some art =>
        rw [hx] at heq
        rw [heq] at h
        simp only [List.mem_cons, List.not_mem_nil, or_false] at h
        rcases h with h | h | h | h | h
        · exact absurd h (by simp)
        · exact absurd h (by simp)
        · rw [Event.exported.injEq] at h
          obtain ⟨hq, hc, ha⟩ := h
          subst hq
          subst hc
          subst ha
          exact ⟨rfl, rfl, hx⟩
        · exact absurd h (by simp)
        · exact absurd h (by simp)

/-- Witness for C4: the concrete export event of a successful run carries the
fixed configuration. -/
theorem C4_export_uses_fixed_config_witness :
    fixedExportConfig = ExportConfig.mk "onnx" 640 true true 12 ∧
      "api/yolov8n-pose.pt" = "api/yolov8n-pose.pt" ∧
      envOk.exportResult "api/yolov8n-pose.pt" (ExportConfig.mk "onnx" 640 true true 12) =
        some "yolov8n-pose.onnx" :=
  C4_export_uses_fixed_config envOk "api/yolov8n-pose.pt" default_output_dir fsOk
    "api/yolov8n-pose.pt" "yolov8n-pose.onnx" fixedExportConfig (by decide)

/-- C5 counterexample: a failure to create the output directory does NOT
propagate out of the loop. With an environment refusing every directory
creation, `convert_yolov8_to_onnx` raises the directory-creation error inside
the per-model body, yet `main` catches it (`caughtError` in the trace),
continues with the next registry entry, and completes normally — so the
creation of the output directory is not an unhandled failure path. -/
theorem C5_counterexample :
    (convert_yolov8_to_onnx envNoMkdir "api/yolov8n-pose.pt" default_output_dir
        fsOk).result = ConvResult.error ConvError.mkdirFailed ∧
    Script.main envNoMkdir fsOk =
      BatchOut.mk fsOk []
        [Event.caughtError "api/yolov8n-pose.pt",
         Event.warnedMissing "api/yolov8s-pose.pt"] :=
  ⟨rfl, rfl⟩

/-- C5 (amended): every error raised inside a per-model conversion — the
directory-creation failure included, since `os.makedirs` runs inside
`convert_yolov8_to_onnx` within the per-model `try` — is caught and is not
fatal: the loop logs it and continues with the remaining registry entries. -/
theorem C5_amended_every_conv_error_caught (env : Env) (m : String)
    (rest : List String) (fs : FS) (e : ConvError)
    (hm : fs.existsFile m = true)
    (he : (convert_yolov8_to_onnx env m default_output_dir fs).result =
      ConvResult.error e) :
    run_batch env (m :: rest) fs =
      BatchOut.mk
        (run_batch env rest (convert_yolov8_to_onnx env m default_output_dir fs).fs).fs
        (run_batch env rest (convert_yolov8_to_onnx env m default_output_dir fs).fs).converted
        ((convert_yolov8_to_onnx env m default_output_dir fs).trace ++
          [Event.caughtError m] ++
          (run_batch env rest (convert_yolov8_to_onnx env m default_output_dir fs).fs).trace) := by
  simp only [run_batch, hm, if_true, he]

/-- Witness for the amended C5 at the directory-creation failure itself. -/
theorem C5_amended_every_conv_error_caught_witness :
    run_batch envNoMkdir ["api/yolov8n-pose.pt"] fsOk =
      BatchOut.mk
        (run_batch envNoMkdir []
          (convert_yolov8_to_onnx envNoMkdir "api/yolov8n-pose.pt" default_output_dir fsOk).fs).fs
        (run_batch envNoMkdir []
          (convert_yolov8_to_onnx envNoMkdir "api/yolov8n-pose.pt" default_output_dir fsOk).fs).converted
        ((convert_yolov8_to_onnx envNoMkdir "api/yolov8n-pose.pt" default_output_dir fsOk).trace ++
          [Event.caughtError "api/yolov8n-pose.pt"] ++
          (run_batch envNoMkdir []
            (convert_yolov8_to_onnx envNoMkdir "api/yolov8n-pose.pt" default_output_dir fsOk).fs).trace) :=
  C5_amended_every_conv_error_caught envNoMkdir "api/yolov8n-pose.pt" [] fsOk
    ConvError.mkdirFailed rfl rfl

/-- C6 counterexample: the size log is emitted by `convert_yolov8_to_onnx`
itself (its own trace, before any caller is involved, ends with the
`loggedSize` event), and the caller's loop adds nothing to it: the claim that
the CALLER computes and logs the megabyte size is false on this run. -/
theorem C6_counterexample :
    (convert_yolov8_to_onnx envOk "api/yolov8n-pose.pt" default_output_dir fsOk).trace =
      [Event.madeDirs "public/models",
       Event.loaded "api/yolov8n-pose.pt",
       Event.exported "api/yolov8n-pose.pt" fixedExportConfig "yolov8n-pose.onnx",
       Event.moved "yolov8n-pose.onnx" "public/models/yolov8n-pose.onnx",
       Event.loggedSize "public/models/yolov8n-pose.onnx"
         (((5242880 : Nat) : ℚ) / (1024 * 1024))] ∧
    (run_batch envOk ["api/yolov8n-pose.pt"] fsOk).trace =
      (convert_yolov8_to_onnx envOk "api/yolov8n-pose.pt" default_output_dir fsOk).trace :=
  ⟨rfl, rfl⟩

/-- C6 (amended): `convert_yolov8_to_onnx` returns the final output path, and
it is `convert_yolov8_to_onnx` itself — not its caller — that computes and
logs the artifact's size in megabytes, as the file size in bytes divided by
`1024 * 1024` (binary mebibytes). -/
theorem C6_amended_convert_itself_logs_size (env : Env) (p d : String) (fs : FS)
    (out : String)
    (h : (convert_yolov8_to_onnx env p d fs).result = ConvResult.ok out) :
    ∃ bytes, (convert_yolov8_to_onnx env p d fs).fs.getsize out = some bytes ∧
      Event.loggedSize out ((bytes : ℚ) / (1024 * 1024)) ∈
        (convert_yolov8_to_onnx env p d fs).trace := by
  obtain ⟨-, art, -, -, heq⟩ := convert_ok_inv env p d fs out h
  refine ⟨env.artifactSize art, ?_, ?_⟩
  · rw [heq]
    exact FS.getsize_setFile_self _ _ _
  · rw [heq]
    simp

/-- Witness for the amended C6 on a concrete successful conversion. -/
theorem C6_amended_convert_itself_logs_size_witness :
    ∃ bytes,
      (convert_yolov8_to_onnx envOk "api/yolov8n-pose.pt" default_output_dir
          fsOk).fs.getsize "public/models/yolov8n-pose.onnx" = some bytes ∧
      Event.loggedSize "public/models/yolov8n-pose.onnx" ((bytes : ℚ) / (1024 * 1024)) ∈
        (convert_yolov8_to_onnx envOk "api/yolov8n-pose.pt" default_output_dir fsOk).trace :=
  C6_amended_convert_itself_logs_size envOk "api/yolov8n-pose.pt" default_output_dir
    fsOk "public/models/yolov8n-pose.onnx" rfl

/-- C7: in every `convert_yolov8_to_onnx` call, (1) when the output directory
already exists the directory-creation step cannot fail (`exist_ok=True`
idempotence), (2) any artifact relocation in the trace is preceded by the
directory creation, which is the very first event, and (3) when the directory
did not exist and creation succeeded, the directory and all its parents exist
afterwards. -/
theorem C7_mkdir_first_idempotent_with_parents (env : Env) (p d : String) (fs : FS) :
    (fs.dirs.contains d = true →
      (convert_yolov8_to_onnx env p d fs).result ≠ ConvResult.error ConvError.mkdirFailed) ∧
    (∀ a b, Event.moved a b ∈ (convert_yolov8_to_onnx env p d fs).trace →
      (convert_yolov8_to_onnx env p d fs).trace.head? = some (Event.madeDirs d)) ∧
    (fs.dirs.contains d = false →
      (convert_yolov8_to_onnx env p d fs).result ≠ ConvResult.error ConvError.mkdirFailed →
      ∀ q ∈ dirPrefixes d, (convert_yolov8_to_onnx env p d fs).fs.dirs.contains q = true) := by
  have heq := convert_eq env p d fs
  split at heq
  next hc =>
    rw [Bool.and_eq_true, Bool.not_eq_true'] at hc
    refine ⟨?_, ?_, ?_⟩
    · intro hd
      rw [hd] at hc
      exact absurd hc.1 (by simp)
    · intro a b hm
      rw [heq] at hm
      simp at hm
    · intro hd hres
      rw [heq] at hres
      simp at hres
  · have hdirs : (convert_yolov8_to_onnx env p d fs).fs.dirs = (mkdirsFS fs d).dirs := by
      split at heq
      · rw [heq]
      · cases hx : env.exportResult p fixedExportConfig with
        | none => rw [hx] at heq; rw [heq]
        | some art => rw [hx] at heq; rw [heq]; rfl
    have hhead : (convert_yolov8_to_onnx env p d fs).trace.head? = some (Event.madeDirs d) := by
      split at heq
      · rw [heq]; rfl
      · cases hx : env.exportResult p fixedExportConfig with
        | none => rw [hx] at heq; rw [heq]; rfl
        | some art => rw [hx] at heq; rw [heq]; rfl
    have hres : (convert_yolov8_to_onnx env p d fs).result ≠
        ConvResult.error ConvError.mkdirFailed := by
      split at heq
      · rw [heq]; simp
      · cases hx : env.exportResult p fixedExportConfig with
        | none => rw [hx] at heq; rw [heq]; simp
        | some art => rw [hx] at heq; rw [heq]; simp
    refine ⟨fun _ => hres, fun a b _ => hhead, fun hd _ q hq => ?_⟩
    rw [hdirs]
    unfold mkdirsFS
    rw [hd]
    simp only [Bool.false_eq_true, if_false]
    simp [List.contains, List.mem_append]
    exact Or.inl hq

/-- Witness for C7: with the output directory already present, even an
environment refusing every directory creation cannot make the creation step
fail (`exist_ok=True`). -/
theorem C7_mkdir_first_idempotent_with_parents_witness :
    (convert_yolov8_to_onnx envNoMkdir "api/yolov8n-pose.pt" default_output_dir
        fsDirReady).result ≠ ConvResult.error ConvError.mkdirFailed :=
  (C7_mkdir_first_idempotent_with_parents envNoMkdir "api/yolov8n-pose.pt"
    default_output_dir fsDirReady).1 rfl

/-- A singleton batch over an existing path whose conversion succeeds:
the accumulator is exactly the returned path. -/
theorem run_batch_singleton_ok (env : Env) (p : String) (fs : FS) (out : String)
    (hex : fs.existsFile p = true)
    (hok : (convert_yolov8_to_onnx env p default_output_dir fs).result =
      ConvResult.ok out) :
    run_batch env [p] fs =
      BatchOut.mk (convert_yolov8_to_onnx env p default_output_dir fs).fs [out]
        (convert_yolov8_to_onnx env p default_output_dir fs).trace := by
  simp [run_batch, hex, hok]

/-- Inversion of a singleton batch that converted something: the path existed
and the conversion returned that output. -/
theorem run_batch_singleton_conv_inv (env : Env) (p : String) (fs : FS) (out : String)
    (h : (run_batch env [p] fs).converted = [out]) :
    fs.existsFile p = true ∧
    (convert_yolov8_to_onnx env p default_output_dir fs).result = ConvResult.ok out := by
  cases hex : fs.existsFile p with
  | false => simp [run_batch, hex] at h
  | true =>
    cases hres : (convert_yolov8_to_onnx env p default_output_dir fs).result with
    | error e => simp [run_batch, hex, hres] at h
    | ok o =>
      simp [run_batch, hex, hres] at h
      subst h
      exact ⟨rfl, rfl⟩

/-- C8: re-running the singleton batch on the state the first run produced
converts the model again to the same path, and the relocation overwrites the
existing `output_dir/<model_name>.onnx` — afterwards the filesystem holds
exactly one entry for that path, not a duplicate. (The exporter's artifact
path and the output path are assumed distinct from the source checkpoint,
as for a freshly produced intermediate artifact.) -/
theorem C8_rerun_overwrites_not_duplicates (env : Env) (p out art : String) (fs : FS)
    (h1 : (run_batch env [p] fs).converted = [out])
    (hart : env.exportResult p fixedExportConfig = some art)
    (hap : art ≠ p) (hop : out ≠ p) :
    (run_batch env [p] (run_batch env [p] fs).fs).converted = [out] ∧
    (run_batch env [p] (run_batch env [p] fs).fs).fs.countKey out = 1 := by
  obtain ⟨hex, hok⟩ := run_batch_singleton_conv_inv env p fs out h1
  obtain ⟨hld, art', hx, hout, heq⟩ := convert_ok_inv env p default_output_dir fs out hok
  rw [hart] at hx
  injection hx with hx'
  subst hx'
  have hr1fs : (run_batch env [p] fs).fs =
      (((mkdirsFS fs default_output_dir).setFile art (env.artifactSize art)).removeFile
        art).setFile out (env.artifactSize art) := by
    rw [run_batch_singleton_ok env p fs out hex hok, heq]
  have hex2 : (run_batch env [p] fs).fs.existsFile p = true := by
    rw [hr1fs, FS.existsFile_eq_isSome_getsize,
      FS.getsize_setFile_ne _ _ _ _ (Ne.symm hop),
      FS.getsize_removeFile_ne _ _ _ (Ne.symm hap),
      FS.getsize_setFile_ne _ _ _ _ (Ne.symm hap),
      mkdirsFS_getsize, ← FS.existsFile_eq_isSome_getsize]
    exact hex
  have hcd : (run_batch env [p] fs).fs.dirs.contains default_output_dir = true := by
    rw [hr1fs]
    exact mkdirsFS_contains_self fs default_output_dir
  have heq2 := convert_eq env p default_output_dir (run_batch env [p] fs).fs
  rw [hcd] at heq2
  simp only [Bool.not_true, Bool.false_and, Bool.false_eq_true, if_false, hld,
    hart] at heq2
  rw [← hout] at heq2
  have hok2 : (convert_yolov8_to_onnx env p default_output_dir
      (run_batch env [p] fs).fs).result = ConvResult.ok out := by
    rw [heq2]
  refine ⟨?_, ?_⟩
  · rw [run_batch_singleton_ok env p ((run_batch env [p] fs).fs) out hex2 hok2]
  · rw [run_batch_singleton_ok env p ((run_batch env [p] fs).fs) out hex2 hok2, heq2]
    exact FS.countKey_setFile_self _ _ _

/-- Witness for C8 on a concrete double run. -/
theorem C8_rerun_overwrites_not_duplicates_witness :
    (run_batch envOk ["api/yolov8n-pose.pt"]
        (run_batch envOk ["api/yolov8n-pose.pt"] fsOk).fs).converted =
      ["public/models/yolov8n-pose.onnx"] ∧
    (run_batch envOk ["api/yolov8n-pose.pt"]
        (run_batch envOk ["api/yolov8n-pose.pt"] fsOk).fs).fs.countKey
      "public/models/yolov8n-pose.onnx" = 1 :=
  C8_rerun_overwrites_not_duplicates envOk "api/yolov8n-pose.pt"
    "public/models/yolov8n-pose.onnx" "yolov8n-pose.onnx" fsOk rfl rfl
    (by decide) (by decide)

/-- C9: the relocation is a move, not a copy. After a successful conversion
whose exporter artifact path differs from the final output path, the artifact
no longer exists at the path the exporter returned, its content (size) now
sits at the final output path, and no other path of the filesystem changed. -/
theorem C9_relocation_is_move (env : Env) (p d : String) (fs : FS) (out art : String)
    (h : (convert_yolov8_to_onnx env p d fs).result = ConvResult.ok out)
    (hart : env.exportResult p fixedExportConfig = some art)
    (hne : art ≠ out) :
    (convert_yolov8_to_onnx env p d fs).fs.existsFile art = false ∧
    (convert_yolov8_to_onnx env p d fs).fs.getsize out = some (env.artifactSize art) ∧
    ∀ q, q ≠ art → q ≠ out →
      (convert_yolov8_to_onnx env p d fs).fs.getsize q = fs.getsize q := by
  obtain ⟨-, art', hx, -, heq⟩ := convert_ok_inv env p d fs out h
  rw [hart] at hx
  injection hx with hx'
  subst hx'
  refine ⟨?_, ?_, ?_⟩
  · rw [heq]
    show ((((mkdirsFS fs d).setFile art (env.artifactSize art)).removeFile
        art).setFile out (env.artifactSize art)).existsFile art = false
    rw [FS.existsFile_eq_isSome_getsize, FS.getsize_setFile_ne _ _ _ _ hne,
      FS.getsize_removeFile_self]
    rfl
  · rw [heq]
    exact FS.getsize_setFile_self _ _ _
  · intro q hqa hqo
    rw [heq]
    show ((((mkdirsFS fs d).setFile art (env.artifactSize art)).removeFile
        art).setFile out (env.artifactSize art)).getsize q = fs.getsize q
    rw [FS.getsize_setFile_ne _ _ _ _ hqo, FS.getsize_removeFile_ne _ _ _ hqa,
      FS.getsize_setFile_ne _ _ _ _ hqa, mkdirsFS_getsize]

/-- Witness for C9 on a concrete successful conversion. -/
theorem C9_relocation_is_move_witness :
    (convert_yolov8_to_onnx envOk "api/yolov8n-pose.pt" default_output_dir
        fsOk).fs.existsFile "yolov8n-pose.onnx" = false ∧
    (convert_yolov8_to_onnx envOk "api/yolov8n-pose.pt" default_output_dir
        fsOk).fs.getsize "public/models/yolov8n-pose.onnx" =
      some (envOk.artifactSize "yolov8n-pose.onnx") ∧
    ∀ q, q ≠ "yolov8n-pose.onnx" → q ≠ "public/models/yolov8n-pose.onnx" →
      (convert_yolov8_to_onnx envOk "api/yolov8n-pose.pt" default_output_dir
          fsOk).fs.getsize q = fsOk.getsize q :=
  C9_relocation_is_move envOk "api/yolov8n-pose.pt" default_output_dir fsOk
    "public/models/yolov8n-pose.onnx" "yolov8n-pose.onnx" rfl rfl (by decide)

/-- C10: `convert_yolov8_to_onnx` is not atomic on error. It creates the
output directory before loading or exporting, so when it then fails (with any
error other than the directory creation itself), the newly created directory
and its parents persist on disk while no file changed — in particular no
output file was produced. -/
theorem C10_created_dirs_persist_on_failure (env : Env) (p d : String) (fs : FS)
    (e : ConvError)
    (h : (convert_yolov8_to_onnx env p d fs).result = ConvResult.error e)
    (hne : e ≠ ConvError.mkdirFailed)
    (hnew : fs.dirs.contains d = false) :
    (convert_yolov8_to_onnx env p d fs).fs.dirs.contains d = true ∧
    (∀ q ∈ dirPrefixes d, (convert_yolov8_to_onnx env p d fs).fs.dirs.contains q = true) ∧
    (convert_yolov8_to_onnx env p d fs).fs.files = fs.files := by
  have hfs := convert_error_inv env p d fs e h hne
  rw [hfs]
  refine ⟨mkdirsFS_contains_self fs d, ?_, mkdirsFS_files fs d⟩
  intro q hq
  unfold mkdirsFS
  rw [hnew]
  simp only [Bool.false_eq_true, if_false]
  simp [List.contains, List.mem_append]
  exact Or.inl hq

/-- Witness for C10: a load failure right after the directory was created. -/
theorem C10_created_dirs_persist_on_failure_witness :
    (convert_yolov8_to_onnx envLoadFail "api/yolov8n-pose.pt" default_output_dir
        fsOk).fs.dirs.contains default_output_dir = true ∧
    (∀ q ∈ dirPrefixes default_output_dir,
      (convert_yolov8_to_onnx envLoadFail "api/yolov8n-pose.pt" default_output_dir
          fsOk).fs.dirs.contains q = true) ∧
    (convert_yolov8_to_onnx envLoadFail "api/yolov8n-pose.pt" default_output_dir
        fsOk).fs.files = fsOk.files :=
  C10_created_dirs_persist_on_failure envLoadFail "api/yolov8n-pose.pt"
    default_output_dir fsOk ConvError.loadFailed rfl (by decide) rfl
